import Mathlib

/-!
Verification of the `joule-hvac` bridge forecast engine
(`prostat-bridge/forecast_engine.py`).

The engine's arithmetic is Python float arithmetic on decimal literals; it is
embedded here exactly, over an arbitrary linear ordered field `K`
(instantiated at `ℚ` for executable reasoning and at `ℝ` inside the monthly
loop, whose hourly temperature curve uses `cos`).  Decimal literals of the
source are written as the same rationals (`0.012` as `12/1000`, `3412.14` as
`341214/100`, and so on).  Python's `round` builtin (round half to even) is
modelled by `pyRound`.  Values held in the settings dict are modelled by
`PyValue`; `float(...)` on such a value is `pyFloat`, which can fail the way
the Python call raises (`Except`).
-/

namespace ForecastEngine

/-- Python values as they occur in the settings dict handled by
`compute_monthly_forecast`: `None`, booleans, numbers (Python floats and ints,
embedded as rationals), strings, and dicts.  String rendering of a value
(`pyStr`) approximates Python's `str`; it is not used by any numeric path. -/
inductive PyValue where
  | none : PyValue
  | bool (b : Bool) : PyValue
  | num (q : ℚ) : PyValue
  | str (s : String) : PyValue
  | dict (l : List (String × PyValue)) : PyValue

/-- Python truthiness of a `PyValue` (`bool(v)`): `None`, `False`, `0`,
the empty string and the empty dict are falsy. -/
def truthy : PyValue → Bool
  | .none => false
  | .bool b => b
  | .num q => decide (q ≠ 0)
  | .str s => decide (s ≠ "")
  | .dict l => !l.isEmpty

/-- Python `a or b`: `a` if `a` is truthy, else `b`. -/
def pyOr (a b : PyValue) : PyValue := if truthy a then a else b

/-- Python `bool(v)`. -/
def pyBool (v : PyValue) : Bool := truthy v

/-- All characters are decimal digits. -/
def allDigits (l : List Char) : Bool := l.all Char.isDigit

/-- Numeric value of a digit string. -/
def digitsVal (l : List Char) : ℕ := l.foldl (fun acc c => acc * 10 + (c.toNat - 48)) 0

/-- Strip leading and trailing whitespace from a character list. -/
def trimChars (l : List Char) : List Char :=
  ((l.dropWhile Char.isWhitespace).reverse.dropWhile Char.isWhitespace).reverse

/-- Unsigned part of Python `float(str)`: digits with an optional single
decimal point (`"12"`, `"12."`, `".5"`, `"1.25"`).  Exponent notation and
`inf`/`nan`, which no caller in this repository produces, are not modelled. -/
def floatOfChars (l : List Char) : Option ℚ :=
  match l.span (· ≠ '.') with
  | (ip, []) => if ip ≠ [] ∧ allDigits ip then some (digitsVal ip : ℚ) else Option.none
  | (ip, _ :: fp) =>
      if (ip ≠ [] ∨ fp ≠ []) ∧ allDigits ip ∧ allDigits fp then
        some ((digitsVal ip : ℚ) + (digitsVal fp : ℚ) / 10 ^ fp.length)
      else Option.none

/-- Python `float(str)`: optional whitespace and sign around `floatOfChars`. -/
def strToRat (s : String) : Option ℚ :=
  match trimChars s.data with
  | '-' :: rest => (floatOfChars rest).map (fun q => -q)
  | '+' :: rest => floatOfChars rest
  | rest => floatOfChars rest

/-- Python `float(v)`.  `None` and dicts raise `TypeError`; a string that does
not parse as a number raises `ValueError`; booleans convert to `0`/`1`. -/
def pyFloat (v : PyValue) : Except String ℚ :=
  match v with
  | .none => .error "TypeError"
  | .bool b => .ok (if b then 1 else 0)
  | .num q => .ok q
  | .str s =>
      match strToRat s with
      | some q => .ok q
      | Option.none => .error "ValueError"
  | .dict _ => .error "TypeError"

/-- A settings dict: association list, first binding wins (Python dict keys
are unique). -/
abbrev Settings : Type := List (String × PyValue)

/-- Python `settings.get(key)`: the bound value, or `None` when absent. -/
def sget : Settings → String → PyValue
  | [], _ => .none
  | (k1, v) :: rest, k => if k1 = k then v else sget rest k

/-- Lookup in a dict value (`d.get(key)`), `None` when absent. -/
def dget : List (String × PyValue) → String → PyValue
  | [], _ => .none
  | (k1, v) :: rest, k => if k1 = k then v else dget rest k

/-- Lookup in a dict value with a default (`d.get(key, default)`). -/
def dgetD (l : List (String × PyValue)) (k : String) (d : PyValue) : PyValue :=
  match l with
  | [] => d
  | (k1, v) :: rest => if k1 = k then v else dgetD rest k d

/-- Approximate rendering of a Python value as a string (`str(v)`); only the
`location` output field uses it, never a numeric path. -/
def pyStr : PyValue → String
  | .none => "None"
  | .bool true => "True"
  | .bool false => "False"
  | .num q => toString q
  | .str s => s
  | .dict _ => "dict"

/-- BTU per kWh, constant `BTU_PER_KWH = 3412.14` of the source. -/
def BTU_PER_KWH {K : Type} [LinearOrderedField K] : K := 341214 / 100

/-- BTU per ton, constant `BTU_PER_TON = 12000` of the source. -/
def BTU_PER_TON {K : Type} [LinearOrderedField K] : K := 12000

/-- Branch of `get_capacity_factor` for `temp_out < 17`
(line 27: `0.64 - (17 - temp_out) * 0.01`, floored at 0). -/
def capFactorBelow17 {K : Type} [LinearOrderedField K] (t : K) : K :=
  max 0 (64 / 100 - (17 - t) * (1 / 100))

/-- Branch of `get_capacity_factor` for `17 ≤ temp_out < 47`
(line 29: `1.0 - (47 - temp_out) * 0.012`). -/
def capFactorMid {K : Type} [LinearOrderedField K] (t : K) : K :=
  1 - (47 - t) * (12 / 1000)

/-- `get_capacity_factor(temp_out, cutoff_temp)` (source lines 20-29).  The
source's default `cutoff_temp=-15` is passed explicitly at call sites. -/
def get_capacity_factor {K : Type} [LinearOrderedField K] (temp_out cutoff_temp : K) : K :=
  if temp_out ≤ cutoff_temp then 0
  else if 47 ≤ temp_out then 1
  else if temp_out < 17 then capFactorBelow17 temp_out
  else capFactorMid temp_out

/-- Branch of `get_base_cop_unscaled` for `17 ≤ temp_out < 47`
(line 37: `4.8 - (47 - temp_out) * 0.0867`). -/
def baseCopMid {K : Type} [LinearOrderedField K] (t : K) : K :=
  48 / 10 - (47 - t) * (867 / 10000)

/-- Branch of `get_base_cop_unscaled` for `temp_out < 17`
(lines 38-39: `2.2 - (17 - temp_out) * 0.02`, floored at 1.2). -/
def baseCopBelow17 {K : Type} [LinearOrderedField K] (t : K) : K :=
  max (12 / 10) (22 / 10 - (17 - t) * (2 / 100))

/-- `get_base_cop_unscaled(temp_out)` (source lines 32-39). -/
def get_base_cop_unscaled {K : Type} [LinearOrderedField K] (temp_out : K) : K :=
  if 47 ≤ temp_out then 48 / 10
  else if 17 ≤ temp_out then baseCopMid temp_out
  else baseCopBelow17 temp_out

/-- The fixed `HSPF2_BIN_HOURS` table (source lines 42-46). -/
def HSPF2_BIN_HOURS : List (ℤ × ℤ) :=
  [(62, 87), (57, 183), (52, 294), (47, 358), (42, 415), (37, 460),
   (33, 430), (28, 407), (23, 311), (18, 239), (13, 152), (8, 91),
   (3, 47), (-2, 20), (-7, 8), (-13, 3)]

/-- `total_weighted` of `get_cop_factor` (line 52). -/
def totalWeighted {K : Type} [LinearOrderedField K] : K :=
  (HSPF2_BIN_HOURS.map (fun p => get_base_cop_unscaled ((p.1 : ℤ) : K) * ((p.2 : ℤ) : K))).sum

/-- `total_hours` of `get_cop_factor` (line 53). -/
def totalHours {K : Type} [LinearOrderedField K] : K :=
  (HSPF2_BIN_HOURS.map (fun p => ((p.2 : ℤ) : K))).sum

/-- `base_seasonal_cop` of `get_cop_factor` (line 54). -/
def baseSeasonalCop {K : Type} [LinearOrderedField K] : K := totalWeighted / totalHours

/-- `get_cop_factor(temp_out, hspf2)` (source lines 49-57). -/
def get_cop_factor {K : Type} [LinearOrderedField K] (temp_out hspf2 : K) : K :=
  let base_cop := get_base_cop_unscaled temp_out
  let target_seasonal_cop := hspf2 * 1000 / BTU_PER_KWH
  let scale := target_seasonal_cop / baseSeasonalCop
  base_cop * scale

/-- The `temp_mult` if/elif chain of `get_defrost_penalty`
(source lines 63-75; initialized to 1.0). -/
def defrostTempMult {K : Type} [LinearOrderedField K] (t : K) : K :=
  if 36 ≤ t ∧ t ≤ 40 then 1
  else if 40 < t ∧ t ≤ 45 then 1 - (t - 40) / 5 * (5 / 10)
  else if 32 ≤ t ∧ t < 36 then 1 - (36 - t) / 4 * (1 / 10)
  else if 20 ≤ t ∧ t < 32 then 9 / 10 - (32 - t) / 12 * (3 / 10)
  else if t < 20 then max (2 / 10) (6 / 10 - (20 - t) / 30 * (4 / 10))
  else if 45 < t then (if t ≤ 50 then 5 / 10 - (t - 45) / 5 * (4 / 10) else 1 / 10)
  else 1

/-- `get_defrost_penalty(outdoor_temp, humidity)` (source lines 60-80). -/
def get_defrost_penalty {K : Type} [LinearOrderedField K] (outdoor_temp humidity : K) : K :=
  let rh := humidity / 100
  let temp_mult := defrostTempMult outdoor_temp
  let base_penalty : K :=
    if 36 ≤ outdoor_temp ∧ outdoor_temp ≤ 40 ∧ 9 / 10 ≤ rh then 2 / 10
    else if 36 ≤ outdoor_temp ∧ outdoor_temp ≤ 40 ∧ 8 / 10 ≤ rh then 18 / 100
    else 15 / 100
  let penalty0 := base_penalty * rh * temp_mult
  let penalty :=
    if 95 / 100 ≤ rh ∧ 32 ≤ outdoor_temp ∧ outdoor_temp ≤ 42 then
      penalty0 + (rh - 95 / 100) * (1 / 10) * temp_mult
    else penalty0
  max 1 (min 2 (1 + penalty))

/-- `btu_loss_per_deg` of `compute_hourly_performance`
(line 95: `design_heat_loss_btu / 70 if design_heat_loss_btu > 0 else 0`). -/
def btuLossPerDeg {K : Type} [LinearOrderedField K] (design_heat_loss_btu : K) : K :=
  if 0 < design_heat_loss_btu then design_heat_loss_btu / 70 else 0

/-- `building_loss_btu_hr` of `compute_hourly_performance` (lines 96-97). -/
def buildingLossBtuHr {K : Type} [LinearOrderedField K]
    (design_heat_loss_btu indoor_temp outdoor_temp : K) : K :=
  btuLossPerDeg design_heat_loss_btu * max 0 (indoor_temp - outdoor_temp)

/-- `available_capacity_btu_hr` of `compute_hourly_performance` (line 99). -/
def availableCapacityBtuHr {K : Type} [LinearOrderedField K] (tons outdoor_temp cutoff_temp : K) : K :=
  tons * BTU_PER_TON * get_capacity_factor outdoor_temp cutoff_temp

/-- `effective_cop` of `compute_hourly_performance` (lines 100-102). -/
def effectiveCop {K : Type} [LinearOrderedField K] (outdoor_temp humidity hspf2 : K) : K :=
  max (5 / 10) (get_cop_factor outdoor_temp hspf2 / get_defrost_penalty outdoor_temp humidity)

/-- `delivered_hp_btu_hr` of `compute_hourly_performance` (line 103). -/
def deliveredHpBtuHr {K : Type} [LinearOrderedField K]
    (tons design_heat_loss_btu indoor_temp outdoor_temp cutoff_temp : K) : K :=
  if 0 < availableCapacityBtuHr tons outdoor_temp cutoff_temp then
    min (buildingLossBtuHr design_heat_loss_btu indoor_temp outdoor_temp)
      (availableCapacityBtuHr tons outdoor_temp cutoff_temp)
  else 0

/-- `deficit_btu_hr` of `compute_hourly_performance` (line 104). -/
def deficitBtuHr {K : Type} [LinearOrderedField K]
    (tons design_heat_loss_btu indoor_temp outdoor_temp cutoff_temp : K) : K :=
  max 0 (buildingLossBtuHr design_heat_loss_btu indoor_temp outdoor_temp -
    deliveredHpBtuHr tons design_heat_loss_btu indoor_temp outdoor_temp cutoff_temp)

/-- `compute_hourly_performance(...)` (source lines 83-107), returning
`(hp_kwh, aux_kwh)`.  `compressor_power` is a parameter the source body never
reads.  The source's defaults `dt_hours=1.0` and `cutoff_temp=-15` are passed
explicitly at call sites. -/
def compute_hourly_performance {K : Type} [LinearOrderedField K]
    (tons indoor_temp design_heat_loss_btu compressor_power hspf2
      outdoor_temp humidity dt_hours cutoff_temp : K) : K × K :=
  let _ := compressor_power
  let delivered := deliveredHpBtuHr tons design_heat_loss_btu indoor_temp outdoor_temp cutoff_temp
  let deficit := deficitBtuHr tons design_heat_loss_btu indoor_temp outdoor_temp cutoff_temp
  let hp_kwh :=
    if 0 < delivered then delivered * dt_hours / (effectiveCop outdoor_temp humidity hspf2 * BTU_PER_KWH)
    else 0
  let aux_kwh := deficit / BTU_PER_KWH * dt_hours
  (hp_kwh, aux_kwh)

/-- Python's builtin `round(x)` (round half to even), as used on line 121. -/
def pyRound {K : Type} [LinearOrderedField K] [FloorRing K] (x : K) : ℤ :=
  if x - ⌊x⌋ < 1 / 2 then ⌊x⌋
  else if 1 / 2 < x - ⌊x⌋ then ⌊x⌋ + 1
  else if Even ⌊x⌋ then ⌊x⌋ else ⌊x⌋ + 1

/-- Python's `round(x, n)` to `n` decimal places (round half to even), as used
on lines 325-340. -/
def pyRoundTo {K : Type} [LinearOrderedField K] [FloorRing K] (x : K) (n : ℕ) : K :=
  ((pyRound (x * 10 ^ n) : ℤ) : K) / 10 ^ n

/-- `calculate_heat_loss(...)` (source lines 110-121). -/
def calculate_heat_loss {K : Type} [LinearOrderedField K] [FloorRing K]
    (square_feet insulation_level home_shape ceiling_height : K) (has_loft : Bool) : K :=
  let ceiling_mult := 1 + (ceiling_height - 8) * (1 / 10)
  let effective_sqft :=
    if has_loft ∧ 12 / 10 ≤ home_shape ∧ home_shape < 13 / 10 then square_feet * (65 / 100)
    else square_feet
  let raw := effective_sqft * (2267 / 100) * insulation_level * home_shape * ceiling_mult
  ((pyRound (raw / 1000) : ℤ) : K) * 1000

/-- `get_hourly_temp(low, high, avg, hour)` (source lines 124-128). -/
noncomputable def get_hourly_temp (low high avg : ℝ) (hour : ℤ) : ℝ :=
  let phase := ((hour : ℝ) - 6) / 12 * Real.pi
  let temp_offset := Real.cos (phase - Real.pi) * ((high - low) / 2)
  avg + temp_offset

/-- One entry of the `weather_days` list consumed by
`compute_monthly_forecast`: the `low`/`high`/`avg` keys are always present in
the dicts `fetch_weather_async` builds and are read with `wday[...]`;
`humidity` is read with `wday.get("humidity", 60)` and is therefore optional.
The unused `day` key is omitted. -/
structure WeatherDay where
  low : ℚ
  high : ℚ
  avg : ℚ
  humidity : Option ℚ

/-- `settings.get(k1) or settings.get(k2) or default` — the resolution pattern
used for every settings field of `compute_monthly_forecast` (lines 247-276). -/
def getField2 (s : Settings) (k1 k2 : String) (d : PyValue) : PyValue :=
  pyOr (pyOr (sget s k1) (sget s k2)) d

/-- `square_feet` resolution (line 247). -/
def resolveSquareFeet (s : Settings) : Except String ℚ :=
  pyFloat (getField2 s "squareFeet" "square_feet" (.num 1500))

/-- `insulation` resolution (line 248). -/
def resolveInsulation (s : Settings) : Except String ℚ :=
  pyFloat (getField2 s "insulationLevel" "insulation_level" (.num 1))

/-- `home_shape` resolution (line 249). -/
def resolveHomeShape (s : Settings) : Except String ℚ :=
  pyFloat (getField2 s "homeShape" "home_shape" (.num 1))

/-- `ceiling_height` resolution (line 250). -/
def resolveCeilingHeight (s : Settings) : Except String ℚ :=
  pyFloat (getField2 s "ceilingHeight" "ceiling_height" (.num 8))

/-- `has_loft` resolution (line 251). -/
def resolveHasLoft (s : Settings) : Bool :=
  pyBool (getField2 s "hasLoft" "has_loft" (.bool false))

/-- `primary_system` resolution (line 252); the source never reads it again. -/
def resolvePrimarySystem (s : Settings) : PyValue :=
  getField2 s "primarySystem" "primary_system" (.str "heatPump")

/-- `winter_day` resolution (line 253). -/
def resolveWinterDay (s : Settings) : Except String ℚ :=
  pyFloat (getField2 s "winterThermostatDay" "winter_thermostat_day" (.num 70))

/-- `winter_night` resolution (line 254). -/
def resolveWinterNight (s : Settings) : Except String ℚ :=
  pyFloat (getField2 s "winterThermostatNight" "winter_thermostat_night" (.num 68))

/-- `utility_cost` resolution (line 255). -/
def resolveUtilityCost (s : Settings) : Except String ℚ :=
  pyFloat (getField2 s "utilityCost" "utility_cost" (.num (1 / 10)))

/-- `fixed_cost` resolution (line 256). -/
def resolveFixedCost (s : Settings) : Except String ℚ :=
  pyFloat (getField2 s "fixedElectricCost" "fixed_electric_cost" (.num 0))

/-- `baseload_kwh_per_day` resolution before clamping (line 257). -/
def resolveBaseload (s : Settings) : Except String ℚ :=
  pyFloat (getField2 s "learnedBaseloadKwhPerDay" "baseloadKwhPerDay" (.num 10))

/-- `manual_hl` resolution (line 259). -/
def resolveManualHl (s : Settings) : Except String ℚ :=
  pyFloat (getField2 s "manualHeatLoss" "manual_heat_loss" (.num 0))

/-- `analyzer_hl` resolution (line 260). -/
def resolveAnalyzerHl (s : Settings) : Except String ℚ :=
  pyFloat (getField2 s "analyzerHeatLoss" "analyzer_heat_loss" (.num 0))

/-- `use_aux` resolution (line 261):
`bool(settings.get("useElectricAuxHeat") or settings.get("use_electric_aux_heat") or True)`. -/
def resolveUseAux (s : Settings) : Bool :=
  pyBool (getField2 s "useElectricAuxHeat" "use_electric_aux_heat" (.bool true))

/-- `use_manual` resolution (line 264): `settings.get(...) or settings.get(...)`,
used only for its truthiness on line 266. -/
def resolveUseManual (s : Settings) : Bool :=
  pyBool (pyOr (sget s "useManualHeatLoss") (sget s "use_manual_heat_loss"))

/-- `use_analyzer` resolution (line 265), used for its truthiness on line 268. -/
def resolveUseAnalyzer (s : Settings) : Bool :=
  pyBool (pyOr (sget s "useAnalyzerHeatLoss") (sget s "use_analyzer_heat_loss"))

/-- `tons` resolution (line 274). -/
def resolveTons (s : Settings) : Except String ℚ :=
  pyFloat (getField2 s "heatPumpTons" "heat_pump_tons" (.num 2))

/-- `efficiency` resolution (line 275). -/
def resolveEfficiency (s : Settings) : Except String ℚ :=
  pyFloat (getField2 s "efficiency" "hspf2" (.num 9))

/-- The local values `compute_monthly_forecast` has computed from `settings`
once lines 247-279 have run. -/
structure Resolved where
  squareFeet : ℚ
  insulation : ℚ
  homeShape : ℚ
  ceilingHeight : ℚ
  hasLoft : Bool
  primarySystem : PyValue
  winterDay : ℚ
  winterNight : ℚ
  utilityCost : ℚ
  fixedCost : ℚ
  baseloadKwhPerDay : ℚ
  manualHl : ℚ
  analyzerHl : ℚ
  useAux : Bool
  useManual : Bool
  useAnalyzer : Bool
  designHeatLoss : ℚ
  tons : ℚ
  efficiency : ℚ
  compressorPower : ℚ
  indoorTemp : ℚ

/-- Settings resolution of `compute_monthly_forecast` (source lines 247-279),
in source order: any `float(...)` call that raises aborts the computation the
way the Python exception propagates. -/
def resolveSettings (s : Settings) : Except String Resolved := do
  let square_feet ← resolveSquareFeet s
  let insulation ← resolveInsulation s
  let home_shape ← resolveHomeShape s
  let ceiling_height ← resolveCeilingHeight s
  let has_loft := resolveHasLoft s
  let primary_system := resolvePrimarySystem s
  let winter_day ← resolveWinterDay s
  let winter_night ← resolveWinterNight s
  let utility_cost ← resolveUtilityCost s
  let fixed_cost ← resolveFixedCost s
  let baseload0 ← resolveBaseload s
  let baseload_kwh_per_day := max 5 (min 25 baseload0)
  let manual_hl ← resolveManualHl s
  let analyzer_hl ← resolveAnalyzerHl s
  let use_aux := resolveUseAux s
  let use_manual := resolveUseManual s
  let use_analyzer := resolveUseAnalyzer s
  let design_heat_loss :=
    if use_manual ∧ 0 < manual_hl then manual_hl * 70
    else if use_analyzer ∧ 0 < analyzer_hl then analyzer_hl * 70
    else calculate_heat_loss square_feet insulation home_shape ceiling_height has_loft
  let tons ← resolveTons s
  let efficiency ← resolveEfficiency s
  let compressor_power := if efficiency ≠ 0 then tons * 1 * (15 / efficiency) else tons * (167 / 100)
  let indoor_temp := winter_day * (16 / 24) + winter_night * (8 / 24)
  pure ⟨square_feet, insulation, home_shape, ceiling_height, has_loft, primary_system,
    winter_day, winter_night, utility_cost, fixed_cost, baseload_kwh_per_day,
    manual_hl, analyzer_hl, use_aux, use_manual, use_analyzer, design_heat_loss,
    tons, efficiency, compressor_power, indoor_temp⟩

/-- The `location` handling of `compute_monthly_forecast` (lines 315-321). -/
def locationString (s : Settings) : String :=
  let location := pyOr (sget s "location") (.dict [])
  match location with
  | .dict l =>
      let city := pyOr (dget l "city") (dgetD l "name" (.str ""))
      let state := dgetD l "state" (.str "")
      if truthy city ∨ truthy state then pyStr city ++ ", " ++ pyStr state else "Unknown"
  | v => if truthy v then pyStr v else "Unknown"

/-- The inner hour loop of `compute_monthly_forecast` (lines 289-306) for one
weather day: returns `(day_energy, day_aux)`.  The hourly outdoor temperature
involves `cos`, so this part of the computation lives in `ℝ`. -/
noncomputable def dayTotals (r : Resolved) (w : WeatherDay) : ℝ × ℝ :=
  (List.range 24).foldl
    (fun acc hour =>
      let hourly_temp := get_hourly_temp (w.low : ℝ) (w.high : ℝ) (w.avg : ℝ) (hour : ℤ)
      let p := compute_hourly_performance (r.tons : ℝ) (r.indoorTemp : ℝ)
        (r.designHeatLoss : ℝ) (r.compressorPower : ℝ) (r.efficiency : ℝ)
        hourly_temp ((w.humidity.getD 60 : ℚ) : ℝ) 1 (-15)
      let day_energy := acc.1 + p.1
      if r.useAux then (day_energy + p.2, acc.2 + p.2) else (day_energy, acc.2))
    (0, 0)

/-- The day loop of `compute_monthly_forecast` (lines 281-308): returns
`(total_energy, total_aux)`. -/
noncomputable def monthTotals (r : Resolved) (weather_days : List WeatherDay) : ℝ × ℝ :=
  weather_days.foldl (fun acc w => ((dayTotals r w).1 + acc.1, (dayTotals r w).2 + acc.2)) (0, 0)

/-- The result payload of `compute_monthly_forecast` (lines 323-342), field
for field in source order.  The `timestamp` field, `int(datetime.now()...)` in
the source, is the `now_ms` parameter of `compute_monthly_forecast`. -/
structure Forecast where
  location : String
  totalMonthlyCost : ℝ
  variableCost : ℝ
  hvacCost : ℝ
  baseloadCost : ℝ
  fixedCost : ℝ
  totalHPCost : ℝ
  totalHPCostWithAux : ℝ
  timestamp : ℤ
  source : String
  month : ℤ
  targetTemp : ℚ
  nightTemp : ℚ
  mode : String
  totalEnergyKwh : ℝ
  auxEnergyKwh : ℝ
  hpEnergyKwh : ℝ
  electricityRate : ℚ

/-- Lines 281-342 of `compute_monthly_forecast`: the simulation loop and the
assembly of the result payload, given the already-resolved settings. -/
noncomputable def forecastFromResolved (r : Resolved) (weather_days : List WeatherDay)
    (s : Settings) (month now_ms : ℤ) : Forecast :=
  let totals := monthTotals r weather_days
  let total_energy := totals.1
  let total_aux := totals.2
  let days_in_month : ℝ := weather_days.length
  let hvac_cost := total_energy * (r.utilityCost : ℝ)
  let baseload_cost := (r.baseloadKwhPerDay : ℝ) * days_in_month * (r.utilityCost : ℝ)
  let total_with_fees := hvac_cost + baseload_cost + (r.fixedCost : ℝ)
  ⟨locationString s,
    pyRoundTo total_with_fees 2,
    pyRoundTo (hvac_cost + baseload_cost) 2,
    pyRoundTo hvac_cost 2,
    pyRoundTo baseload_cost 2,
    pyRoundTo (r.fixedCost : ℝ) 2,
    pyRoundTo (total_with_fees / (433 / 100)) 2,
    pyRoundTo (total_with_fees / (433 / 100)) 2,
    now_ms,
    "bridge_forecast",
    month,
    r.indoorTemp,
    r.winterNight,
    "heating",
    pyRoundTo total_energy 1,
    pyRoundTo total_aux 1,
    pyRoundTo (total_energy - total_aux) 1,
    r.utilityCost⟩

/-- `compute_monthly_forecast(weather_days, settings, month, year)` (source
lines 237-342).  `year` is accepted and, as in the source body, never used;
`now_ms` stands for the wall clock read on line 332. -/
noncomputable def compute_monthly_forecast (weather_days : List WeatherDay) (settings : Settings)
    (month year now_ms : ℤ) : Except String Forecast := do
  let _ := year
  let r ← resolveSettings settings
  pure (forecastFromResolved r weather_days settings month now_ms)

/-! Helper lemmas. -/

/-- Bind on `Except` consumes a success. -/
theorem ebind_ok {α β ε : Type} (a : α) (f : α → Except ε β) :
    (Except.ok a : Except ε α) >>= f = f a := rfl

/-- A falsy left operand makes `pyOr` return its right operand. -/
theorem pyOr_falsy (a b : PyValue) (h : truthy a = false) : pyOr a b = b := by
  simp [pyOr, h]

/-- Looking anything up in a settings dict all of whose values are falsy
yields a falsy value. -/
theorem sget_falsy : ∀ s : Settings, (∀ p ∈ s, truthy p.2 = false) →
    ∀ k, truthy (sget s k) = false := by
  intro s
  induction s with
  | nil => intro _ k; rfl
  | cons p rest ih =>
      intro h k
      obtain ⟨k1, v⟩ := p
      show truthy (if k1 = k then v else sget rest k) = false
      split_ifs with hk
      · exact h (k1, v) (List.mem_cons_self _ _)
      · exact ih (fun q hq => h q (List.mem_cons_of_mem _ hq)) k

/-- Field resolution on a settings dict of falsy values returns the default. -/
theorem getField2_falsy (s : Settings) (h : ∀ p ∈ s, truthy p.2 = false)
    (k1 k2 : String) (d : PyValue) : getField2 s k1 k2 d = d := by
  unfold getField2
  rw [pyOr_falsy _ _ (sget_falsy s h k1), pyOr_falsy _ _ (sget_falsy s h k2)]

/-- `pyRound` is at least the floor. -/
theorem floor_le_pyRound {K : Type} [LinearOrderedField K] [FloorRing K] (x : K) :
    ⌊x⌋ ≤ pyRound x := by
  unfold pyRound; split_ifs <;> omega

/-- `pyRound` is at most the floor plus one. -/
theorem pyRound_le_floor_add_one {K : Type} [LinearOrderedField K] [FloorRing K] (x : K) :
    pyRound x ≤ ⌊x⌋ + 1 := by
  unfold pyRound; split_ifs <;> omega

/-- Python's round-half-to-even is monotone. -/
theorem pyRound_mono {K : Type} [LinearOrderedField K] [FloorRing K] {x y : K}
    (h : x ≤ y) : pyRound x ≤ pyRound y := by
  have hf : ⌊x⌋ ≤ ⌊y⌋ := Int.floor_le_floor h
  rcases lt_or_eq_of_le hf with hlt | heq
  · have h1 := pyRound_le_floor_add_one x
    have h2 := floor_le_pyRound y
    omega
  · unfold pyRound
    rw [← heq]
    have hxy : x - (⌊x⌋ : K) ≤ y - (⌊x⌋ : K) := by linarith
    split_ifs <;> first | omega | (exfalso; linarith)

/-! Claim theorems. -/

/-- Claim C6: for every outdoor temperature and every humidity percentage,
`get_defrost_penalty` returns a value in the closed interval `[1, 2]`. -/
theorem defrost_penalty_bounded (t h : ℚ) :
    1 ≤ get_defrost_penalty t h ∧ get_defrost_penalty t h ≤ 2 :=
  ⟨le_max_left _ _, max_le one_le_two (min_le_left _ _)⟩

/-- Claim C5, counterexample: `get_base_cop_unscaled` is not continuous at
17°F.  Its two adjacent branches disagree there: the `17 ≤ t` branch gives
`4.8 - 30*0.0867 = 2.199` while the `t < 17` branch gives `2.2`, so the
function jumps: it is `2.19998` at `16.999` yet `2.199` at `17`. -/
theorem base_cop_branch_gap_at_17 :
    baseCopMid (17 : ℚ) ≠ baseCopBelow17 (17 : ℚ) ∧
    get_base_cop_unscaled (17 : ℚ) = 2199 / 1000 ∧
    get_base_cop_unscaled (16999 / 1000 : ℚ) = 219998 / 100000 ∧
    get_base_cop_unscaled (16999 / 1000 : ℚ) > get_base_cop_unscaled (17 : ℚ) := by
  norm_num [get_base_cop_unscaled, baseCopMid, baseCopBelow17, max_def]

/-- Claim C5, amended: `get_capacity_factor` (default cutoff −15°F) has equal
adjacent branch values at both breakpoints 17°F and 47°F, and
`get_base_cop_unscaled` at 47°F; at 17°F the two branches of
`get_base_cop_unscaled` differ by exactly `0.001` (`2.2` versus `2.199`),
a jump discontinuity. -/
theorem breakpoint_branch_agreement :
    capFactorBelow17 (17 : ℚ) = capFactorMid (17 : ℚ) ∧
    capFactorMid (47 : ℚ) = 1 ∧
    get_capacity_factor (17 : ℚ) (-15) = 64 / 100 ∧
    get_capacity_factor (47 : ℚ) (-15) = 1 ∧
    baseCopMid (47 : ℚ) = 48 / 10 ∧
    get_base_cop_unscaled (47 : ℚ) = 48 / 10 ∧
    baseCopBelow17 (17 : ℚ) - baseCopMid (17 : ℚ) = 1 / 1000 := by
  norm_num [capFactorBelow17, capFactorMid, get_capacity_factor, baseCopMid, baseCopBelow17,
    get_base_cop_unscaled, max_def]

/-- Claim C2: whenever the building loss is positive, the heat delivered by
the heat pump plus the deficit served as auxiliary heat equals the building
loss exactly (the quantities of `compute_hourly_performance`, source lines
95-104). -/
theorem delivered_plus_deficit_eq_loss (tons design indoor outdoor cutoff : ℚ)
    (h : 0 < buildingLossBtuHr design indoor outdoor) :
    deliveredHpBtuHr tons design indoor outdoor cutoff +
      deficitBtuHr tons design indoor outdoor cutoff =
      buildingLossBtuHr design indoor outdoor := by
  by_cases hc : 0 < availableCapacityBtuHr tons outdoor cutoff
  · unfold deficitBtuHr deliveredHpBtuHr
    rw [if_pos hc]
    have hmin := min_le_left (buildingLossBtuHr design indoor outdoor)
      (availableCapacityBtuHr tons outdoor cutoff)
    rw [max_eq_right (by linarith)]
    ring
  · unfold deficitBtuHr deliveredHpBtuHr
    rw [if_neg hc]
    rw [max_eq_right (by linarith)]
    ring

/-- Witness for C2 at a concrete hour with positive load. -/
theorem delivered_plus_deficit_eq_loss_witness :
    0 < buildingLossBtuHr (35000 : ℚ) 70 30 ∧
    deliveredHpBtuHr (2 : ℚ) 35000 70 30 (-15) + deficitBtuHr (2 : ℚ) 35000 70 30 (-15) =
      buildingLossBtuHr (35000 : ℚ) 70 30 :=
  ⟨by norm_num [buildingLossBtuHr, btuLossPerDeg, max_def],
    delivered_plus_deficit_eq_loss 2 35000 70 30 (-15)
      (by norm_num [buildingLossBtuHr, btuLossPerDeg, max_def])⟩

/-- Claim C9: at or below the cutoff temperature the capacity factor is 0,
`compute_hourly_performance` delivers no heat-pump energy, and the entire
building load is served as auxiliary energy
(`aux_kwh = buildingLoss*dt/3412.14`). -/
theorem below_cutoff_full_aux (tons indoor design comp hspf2 hum dt outdoor cutoff : ℚ)
    (h : outdoor ≤ cutoff) :
    get_capacity_factor outdoor cutoff = 0 ∧
    (compute_hourly_performance tons indoor design comp hspf2 outdoor hum dt cutoff).1 = 0 ∧
    (compute_hourly_performance tons indoor design comp hspf2 outdoor hum dt cutoff).2 =
      buildingLossBtuHr design indoor outdoor * dt / BTU_PER_KWH := by
  have hcf : get_capacity_factor outdoor cutoff = 0 := by
    unfold get_capacity_factor; rw [if_pos h]
  have hA : availableCapacityBtuHr tons outdoor cutoff = 0 := by
    unfold availableCapacityBtuHr; rw [hcf]; ring
  have hdel : deliveredHpBtuHr tons design indoor outdoor cutoff = 0 := by
    unfold deliveredHpBtuHr; rw [hA]; simp
  have hLnn : 0 ≤ buildingLossBtuHr design indoor outdoor := by
    unfold buildingLossBtuHr btuLossPerDeg
    apply mul_nonneg
    · split_ifs with hd
      · positivity
      · exact le_refl 0
    · exact le_max_left 0 _
  have hdef : deficitBtuHr tons design indoor outdoor cutoff =
      buildingLossBtuHr design indoor outdoor := by
    unfold deficitBtuHr
    rw [hdel, sub_zero, max_eq_right hLnn]
  refine ⟨hcf, ?_, ?_⟩
  · show (if 0 < deliveredHpBtuHr tons design indoor outdoor cutoff then
      deliveredHpBtuHr tons design indoor outdoor cutoff * dt /
        (effectiveCop outdoor hum hspf2 * BTU_PER_KWH) else 0) = 0
    rw [hdel]
    simp
  · show deficitBtuHr tons design indoor outdoor cutoff / BTU_PER_KWH * dt =
      buildingLossBtuHr design indoor outdoor * dt / BTU_PER_KWH
    rw [hdef]
    ring

/-- Witness for C9 at −20°F against the default −15°F cutoff. -/
theorem below_cutoff_full_aux_witness :
    (-20 : ℚ) ≤ -15 ∧
    (get_capacity_factor (-20 : ℚ) (-15) = 0 ∧
      (compute_hourly_performance (2 : ℚ) 70 35000 2 9 (-20) 50 1 (-15)).1 = 0 ∧
      (compute_hourly_performance (2 : ℚ) 70 35000 2 9 (-20) 50 1 (-15)).2 =
        buildingLossBtuHr (35000 : ℚ) 70 (-20) * 1 / BTU_PER_KWH) :=
  ⟨by norm_num, below_cutoff_full_aux 2 70 35000 2 9 50 1 (-20) (-15) (by norm_num)⟩

/-- Claim C7, counterexample: with a negative timestep `dt_hours = -1`,
`compute_hourly_performance` returns a negative auxiliary energy, so the
universal claim over every timestep fails. -/
theorem negative_dt_negative_aux :
    (compute_hourly_performance (1 : ℚ) 70 70000 2 9 0 50 (-1) (-15)).2 < 0 := by
  have hd : deficitBtuHr (1 : ℚ) 70000 70 0 (-15) = 64360 := by
    norm_num [deficitBtuHr, deliveredHpBtuHr, availableCapacityBtuHr, buildingLossBtuHr,
      btuLossPerDeg, get_capacity_factor, capFactorBelow17, capFactorMid, BTU_PER_TON,
      max_def, min_def]
  show deficitBtuHr (1 : ℚ) 70000 70 0 (-15) / BTU_PER_KWH * (-1) < 0
  rw [hd]
  norm_num [BTU_PER_KWH]

/-- Claim C7, amended: for every input with a nonnegative timestep,
`compute_hourly_performance` divides by no zero divisor — the effective COP is
at least `0.5` so `effective_cop * 3412.14` is positive, and the seasonal-COP
denominators `total_hours` and `base_seasonal_cop` inside `get_cop_factor` are
nonzero — and both returned energies are nonnegative. -/
theorem hourly_energies_nonneg (tons indoor design comp hspf2 outdoor hum dt cutoff : ℚ)
    (hdt : 0 ≤ dt) :
    5 / 10 ≤ effectiveCop outdoor hum hspf2 ∧
    (totalHours : ℚ) ≠ 0 ∧ (baseSeasonalCop : ℚ) ≠ 0 ∧
    0 ≤ (compute_hourly_performance tons indoor design comp hspf2 outdoor hum dt cutoff).1 ∧
    0 ≤ (compute_hourly_performance tons indoor design comp hspf2 outdoor hum dt cutoff).2 := by
  have hec : (0 : ℚ) < effectiveCop outdoor hum hspf2 :=
    lt_of_lt_of_le (by norm_num) (le_max_left _ _)
  have hB : (0 : ℚ) < BTU_PER_KWH := by norm_num [BTU_PER_KWH]
  refine ⟨le_max_left _ _, ?_, ?_, ?_, ?_⟩
  · norm_num [totalHours, HSPF2_BIN_HOURS]
  · have hw : (totalWeighted : ℚ) = 129153059 / 10000 := by
      norm_num [totalWeighted, HSPF2_BIN_HOURS, get_base_cop_unscaled, baseCopMid,
        baseCopBelow17, max_def]
    have hh : (totalHours : ℚ) = 3505 := by norm_num [totalHours, HSPF2_BIN_HOURS]
    unfold baseSeasonalCop
    rw [hw, hh]
    norm_num
  · show 0 ≤ (if 0 < deliveredHpBtuHr tons design indoor outdoor cutoff then
      deliveredHpBtuHr tons design indoor outdoor cutoff * dt /
        (effectiveCop outdoor hum hspf2 * BTU_PER_KWH) else 0)
    split_ifs with hdel
    · exact div_nonneg (mul_nonneg hdel.le hdt) (mul_pos hec hB).le
    · exact le_refl 0
  · show 0 ≤ deficitBtuHr tons design indoor outdoor cutoff / BTU_PER_KWH * dt
    refine mul_nonneg (div_nonneg ?_ hB.le) hdt
    unfold deficitBtuHr
    exact le_max_left 0 _

/-- Witness for the amended C7 at a concrete hour with `dt_hours = 1`. -/
theorem hourly_energies_nonneg_witness :
    (0 : ℚ) ≤ 1 ∧
    (5 / 10 ≤ effectiveCop (30 : ℚ) 50 9 ∧
      (totalHours : ℚ) ≠ 0 ∧ (baseSeasonalCop : ℚ) ≠ 0 ∧
      0 ≤ (compute_hourly_performance (2 : ℚ) 70 35000 2 9 30 50 1 (-15)).1 ∧
      0 ≤ (compute_hourly_performance (2 : ℚ) 70 35000 2 9 30 50 1 (-15)).2) :=
  ⟨by norm_num, hourly_energies_nonneg 2 70 35000 2 9 30 50 1 (-15) (by norm_num)⟩

/-- Claim C8, counterexample: with a negative insulation level,
`calculate_heat_loss` strictly decreases as square footage grows, so
monotonicity in `square_feet` needs the sign conditions. -/
theorem heat_loss_not_monotone_without_sign_condition :
    calculate_heat_loss (200 : ℚ) (-1) 1 8 false < calculate_heat_loss (100 : ℚ) (-1) 1 8 false := by
  have p1 : pyRound (-(2267 / 1000) : ℚ) = -2 := by
    have hf : ⌊(-(2267 / 1000) : ℚ)⌋ = -3 := by norm_num [Int.floor_eq_iff]
    norm_num [pyRound, hf]
  have p2 : pyRound (-(2267 / 500) : ℚ) = -5 := by
    have hf : ⌊(-(2267 / 500) : ℚ)⌋ = -5 := by norm_num [Int.floor_eq_iff]
    norm_num [pyRound, hf]
  have h1 : calculate_heat_loss (100 : ℚ) (-1) 1 8 false = -2000 := by
    simp only [calculate_heat_loss]
    norm_num
    rw [p1]
    norm_num
  have h2 : calculate_heat_loss (200 : ℚ) (-1) 1 8 false = -5000 := by
    simp only [calculate_heat_loss]
    norm_num
    rw [p2]
    norm_num
  rw [h1, h2]
  norm_num

/-- Claim C8, amended: with the fixed arguments nonnegative (so that every
factor of the heat-loss product is nonnegative; the loft branch is fixed by
fixing `home_shape` and `has_loft`), `calculate_heat_loss` is monotonically
non-decreasing in `square_feet` and, when additionally `square_feet` is
nonnegative, in `insulation_level`; Python's round-to-nearest-1000
(half-to-even) preserves the monotonicity. -/
theorem heat_loss_monotone (sq1 sq2 ins1 ins2 shape hgt : ℚ) (loft : Bool)
    (hsq1 : 0 ≤ sq1) (hins1 : 0 ≤ ins1) (hshape : 0 ≤ shape) (hhgt : 0 ≤ hgt) :
    (sq1 ≤ sq2 → calculate_heat_loss sq1 ins1 shape hgt loft ≤
      calculate_heat_loss sq2 ins1 shape hgt loft) ∧
    (ins1 ≤ ins2 → calculate_heat_loss sq1 ins1 shape hgt loft ≤
      calculate_heat_loss sq1 ins2 shape hgt loft) := by
  have hcm : (0 : ℚ) ≤ 1 + (hgt - 8) * (1 / 10) := by linarith
  have main : ∀ r1 r2 : ℚ, r1 ≤ r2 →
      ((pyRound (r1 / 1000) : ℤ) : ℚ) * 1000 ≤ ((pyRound (r2 / 1000) : ℤ) : ℚ) * 1000 := by
    intro r1 r2 hr
    have hq : pyRound (r1 / 1000) ≤ pyRound (r2 / 1000) := pyRound_mono (by linarith)
    have hc : ((pyRound (r1 / 1000) : ℤ) : ℚ) ≤ ((pyRound (r2 / 1000) : ℤ) : ℚ) := by
      exact_mod_cast hq
    exact mul_le_mul_of_nonneg_right hc (by norm_num)
  constructor
  · intro hle
    simp only [calculate_heat_loss]
    refine main _ _ ?_
    by_cases hc : (loft = true) ∧ 12 / 10 ≤ shape ∧ shape < 13 / 10
    · rw [if_pos hc, if_pos hc]
      have e12 : sq1 * (65 / 100) ≤ sq2 * (65 / 100) :=
        mul_le_mul_of_nonneg_right hle (by norm_num)
      exact mul_le_mul_of_nonneg_right
        (mul_le_mul_of_nonneg_right
          (mul_le_mul_of_nonneg_right
            (mul_le_mul_of_nonneg_right e12 (by norm_num)) hins1) hshape) hcm
    · rw [if_neg hc, if_neg hc]
      exact mul_le_mul_of_nonneg_right
        (mul_le_mul_of_nonneg_right
          (mul_le_mul_of_nonneg_right
            (mul_le_mul_of_nonneg_right hle (by norm_num)) hins1) hshape) hcm
  · intro hle
    simp only [calculate_heat_loss]
    refine main _ _ ?_
    have heff : 0 ≤ (if (loft = true) ∧ 12 / 10 ≤ shape ∧ shape < 13 / 10 then
        sq1 * (65 / 100) else sq1) := by
      split_ifs
      · exact mul_nonneg hsq1 (by norm_num)
      · exact hsq1
    have base : (if (loft = true) ∧ 12 / 10 ≤ shape ∧ shape < 13 / 10 then
          sq1 * (65 / 100) else sq1) * (2267 / 100) * ins1 ≤
        (if (loft = true) ∧ 12 / 10 ≤ shape ∧ shape < 13 / 10 then
          sq1 * (65 / 100) else sq1) * (2267 / 100) * ins2 :=
      mul_le_mul_of_nonneg_left hle (mul_nonneg heff (by norm_num))
    exact mul_le_mul_of_nonneg_right (mul_le_mul_of_nonneg_right base hshape) hcm

/-- Witness for the amended C8 at concrete building parameters. -/
theorem heat_loss_monotone_witness :
    (1000 : ℚ) ≤ 1200 ∧
    calculate_heat_loss (1000 : ℚ) 1 1 8 false ≤ calculate_heat_loss (1200 : ℚ) 1 1 8 false :=
  ⟨by norm_num,
    (heat_loss_monotone 1000 1200 1 2 1 8 false (by norm_num) (by norm_num) (by norm_num)
      (by norm_num)).1 (by norm_num)⟩

/-- Claim C4: the sinusoid of `get_hourly_temp` does not peak at hour 14.
For the day `low = 0, high = 10, avg = 5` the temperature at 18:00 is `10`
while at 14:00 it is only `7.5`, and hour 18 is the maximum over all hours
(`cos` attains `1` exactly when the phase argument vanishes, i.e. at
`hour = 18`).  The code's own docstring says the maximum is at 2 PM. -/
theorem hourly_temp_peak_at_18_not_14 :
    get_hourly_temp 0 10 5 14 < get_hourly_temp 0 10 5 18 ∧
    ∀ hour : ℤ, get_hourly_temp 0 10 5 hour ≤ get_hourly_temp 0 10 5 18 := by
  have c18 : Real.cos ((((18 : ℤ) : ℝ) - 6) / 12 * Real.pi - Real.pi) = 1 := by
    have harg : (((18 : ℤ) : ℝ) - 6) / 12 * Real.pi - Real.pi = 0 := by
      push_cast
      ring
    rw [harg, Real.cos_zero]
  have c14 : Real.cos ((((14 : ℤ) : ℝ) - 6) / 12 * Real.pi - Real.pi) = 1 / 2 := by
    have harg : (((14 : ℤ) : ℝ) - 6) / 12 * Real.pi - Real.pi = -(Real.pi / 3) := by
      push_cast
      ring
    rw [harg, Real.cos_neg, Real.cos_pi_div_three]
  constructor
  · show (5 : ℝ) + Real.cos ((((14 : ℤ) : ℝ) - 6) / 12 * Real.pi - Real.pi) * ((10 - 0) / 2) <
      (5 : ℝ) + Real.cos ((((18 : ℤ) : ℝ) - 6) / 12 * Real.pi - Real.pi) * ((10 - 0) / 2)
    rw [c14, c18]
    norm_num
  · intro hour
    show (5 : ℝ) + Real.cos (((hour : ℝ) - 6) / 12 * Real.pi - Real.pi) * ((10 - 0) / 2) ≤
      (5 : ℝ) + Real.cos ((((18 : ℤ) : ℝ) - 6) / 12 * Real.pi - Real.pi) * ((10 - 0) / 2)
    rw [c18]
    have hcos := Real.cos_le_one (((hour : ℝ) - 6) / 12 * Real.pi - Real.pi)
    nlinarith [hcos]

/-- Claim C1: the aux-heat toggle of `compute_monthly_forecast` is
unconditionally true.  Line 261 computes
`bool(settings.get("useElectricAuxHeat") or settings.get("use_electric_aux_heat") or True)`,
and the trailing `or True` swallows an explicit `False`, so `use_aux` is true
for every settings dict — including one that disables aux heat. -/
theorem use_aux_always_true :
    (∀ s : Settings, resolveUseAux s = true) ∧
    resolveUseAux [("useElectricAuxHeat", PyValue.bool false)] = true := by
  have hall : ∀ s : Settings, resolveUseAux s = true := by
    intro s
    unfold resolveUseAux getField2 pyBool pyOr
    split_ifs <;> first | rfl | assumption
  exact ⟨hall, hall _⟩

/-- Claim C10: a numeric settings field that is present but falsy (`0`, `""`,
`False`, `None`) is treated exactly like a missing field by every numeric
resolution of `compute_monthly_forecast` — the boolean `or` chain of line
247-275 skips falsy values — so each field falls back to its documented
default. -/
theorem falsy_field_defaults (v : PyValue) (hv : truthy v = false) :
    resolveSquareFeet [("squareFeet", v)] = .ok 1500 ∧
    resolveInsulation [("insulationLevel", v)] = .ok 1 ∧
    resolveHomeShape [("homeShape", v)] = .ok 1 ∧
    resolveCeilingHeight [("ceilingHeight", v)] = .ok 8 ∧
    resolveWinterDay [("winterThermostatDay", v)] = .ok 70 ∧
    resolveWinterNight [("winterThermostatNight", v)] = .ok 68 ∧
    resolveUtilityCost [("utilityCost", v)] = .ok (1 / 10) ∧
    resolveFixedCost [("fixedElectricCost", v)] = .ok 0 ∧
    resolveBaseload [("learnedBaseloadKwhPerDay", v)] = .ok 10 ∧
    resolveManualHl [("manualHeatLoss", v)] = .ok 0 ∧
    resolveAnalyzerHl [("analyzerHeatLoss", v)] = .ok 0 ∧
    resolveTons [("heatPumpTons", v)] = .ok 2 ∧
    resolveEfficiency [("hspf2", v)] = .ok 9 := by
  have hs : ∀ k : String, ∀ p ∈ ([(k, v)] : Settings), truthy p.2 = false := by
    intro k p hp
    rw [List.mem_singleton.mp hp]
    exact hv
  refine ⟨?_, ?_, ?_, ?_, ?_, ?_, ?_, ?_, ?_, ?_, ?_, ?_, ?_⟩
  · unfold resolveSquareFeet; rw [getField2_falsy _ (hs _)]; rfl
  · unfold resolveInsulation; rw [getField2_falsy _ (hs _)]; rfl
  · unfold resolveHomeShape; rw [getField2_falsy _ (hs _)]; rfl
  · unfold resolveCeilingHeight; rw [getField2_falsy _ (hs _)]; rfl
  · unfold resolveWinterDay; rw [getField2_falsy _ (hs _)]; rfl
  · unfold resolveWinterNight; rw [getField2_falsy _ (hs _)]; rfl
  · unfold resolveUtilityCost; rw [getField2_falsy _ (hs _)]; rfl
  · unfold resolveFixedCost; rw [getField2_falsy _ (hs _)]; rfl
  · unfold resolveBaseload; rw [getField2_falsy _ (hs _)]; rfl
  · unfold resolveManualHl; rw [getField2_falsy _ (hs _)]; rfl
  · unfold resolveAnalyzerHl; rw [getField2_falsy _ (hs _)]; rfl
  · unfold resolveTons; rw [getField2_falsy _ (hs _)]; rfl
  · unfold resolveEfficiency; rw [getField2_falsy _ (hs _)]; rfl

/-- Witness for C10 with the falsy value `0` present under each field's key. -/
theorem falsy_field_defaults_witness :
    truthy (PyValue.num 0) = false ∧
    (resolveSquareFeet [("squareFeet", PyValue.num 0)] = .ok 1500 ∧
      resolveInsulation [("insulationLevel", PyValue.num 0)] = .ok 1 ∧
      resolveHomeShape [("homeShape", PyValue.num 0)] = .ok 1 ∧
      resolveCeilingHeight [("ceilingHeight", PyValue.num 0)] = .ok 8 ∧
      resolveWinterDay [("winterThermostatDay", PyValue.num 0)] = .ok 70 ∧
      resolveWinterNight [("winterThermostatNight", PyValue.num 0)] = .ok 68 ∧
      resolveUtilityCost [("utilityCost", PyValue.num 0)] = .ok (1 / 10) ∧
      resolveFixedCost [("fixedElectricCost", PyValue.num 0)] = .ok 0 ∧
      resolveBaseload [("learnedBaseloadKwhPerDay", PyValue.num 0)] = .ok 10 ∧
      resolveManualHl [("manualHeatLoss", PyValue.num 0)] = .ok 0 ∧
      resolveAnalyzerHl [("analyzerHeatLoss", PyValue.num 0)] = .ok 0 ∧
      resolveTons [("heatPumpTons", PyValue.num 0)] = .ok 2 ∧
      resolveEfficiency [("hspf2", PyValue.num 0)] = .ok 9) :=
  ⟨rfl, falsy_field_defaults (PyValue.num 0) rfl⟩

/-- Claim C3, counterexample: a present, truthy, non-numeric settings value is
not recovered — `float("abc")` raises, and `compute_monthly_forecast`
propagates the `ValueError` instead of falling back to the default. -/
theorem wrongtype_setting_raises :
    compute_monthly_forecast [] [("squareFeet", PyValue.str "abc")] 1 2025 0 =
      Except.error "ValueError" := by
  rfl

/-- Claim C3, amended: `compute_monthly_forecast` never raises on settings
whose numeric fields are missing, `None`, or otherwise falsy; each such field
falls back to its documented default (`squareFeet` 1500, `insulationLevel`
1.0, `winterThermostatDay` 70, `utilityCost` 0.10, `heatPumpTons` 2.0,
`hspf2` 9.0).  A present truthy value of the wrong type, however, raises. -/
theorem falsy_settings_never_raise (s : Settings)
    (hfalsy : ∀ p ∈ s, truthy p.2 = false) :
    ∃ r : Resolved, resolveSettings s = .ok r ∧
      r.squareFeet = 1500 ∧ r.insulation = 1 ∧ r.winterDay = 70 ∧
      r.utilityCost = 1 / 10 ∧ r.tons = 2 ∧ r.efficiency = 9 ∧
      ∀ (w : List WeatherDay) (m y n : ℤ),
        compute_monthly_forecast w s m y n = .ok (forecastFromResolved r w s m n) := by
  have h1 : resolveSquareFeet s = .ok 1500 := by
    unfold resolveSquareFeet; rw [getField2_falsy _ hfalsy]; rfl
  have h2 : resolveInsulation s = .ok 1 := by
    unfold resolveInsulation; rw [getField2_falsy _ hfalsy]; rfl
  have h3 : resolveHomeShape s = .ok 1 := by
    unfold resolveHomeShape; rw [getField2_falsy _ hfalsy]; rfl
  have h4 : resolveCeilingHeight s = .ok 8 := by
    unfold resolveCeilingHeight; rw [getField2_falsy _ hfalsy]; rfl
  have h5 : resolveHasLoft s = false := by
    unfold resolveHasLoft; rw [getField2_falsy _ hfalsy]; rfl
  have h6 : resolvePrimarySystem s = .str "heatPump" := by
    unfold resolvePrimarySystem; rw [getField2_falsy _ hfalsy]
  have h7 : resolveWinterDay s = .ok 70 := by
    unfold resolveWinterDay; rw [getField2_falsy _ hfalsy]; rfl
  have h8 : resolveWinterNight s = .ok 68 := by
    unfold resolveWinterNight; rw [getField2_falsy _ hfalsy]; rfl
  have h9 : resolveUtilityCost s = .ok (1 / 10) := by
    unfold resolveUtilityCost; rw [getField2_falsy _ hfalsy]; rfl
  have h10 : resolveFixedCost s = .ok 0 := by
    unfold resolveFixedCost; rw [getField2_falsy _ hfalsy]; rfl
  have h11 : resolveBaseload s = .ok 10 := by
    unfold resolveBaseload; rw [getField2_falsy _ hfalsy]; rfl
  have h12 : resolveManualHl s = .ok 0 := by
    unfold resolveManualHl; rw [getField2_falsy _ hfalsy]; rfl
  have h13 : resolveAnalyzerHl s = .ok 0 := by
    unfold resolveAnalyzerHl; rw [getField2_falsy _ hfalsy]; rfl
  have h14 : resolveUseAux s = true := by
    unfold resolveUseAux; rw [getField2_falsy _ hfalsy]; rfl
  have h15 : resolveUseManual s = false := by
    unfold resolveUseManual pyBool
    rw [pyOr_falsy _ _ (sget_falsy s hfalsy _)]
    exact sget_falsy s hfalsy _
  have h16 : resolveUseAnalyzer s = false := by
    unfold resolveUseAnalyzer pyBool
    rw [pyOr_falsy _ _ (sget_falsy s hfalsy _)]
    exact sget_falsy s hfalsy _
  have h17 : resolveTons s = .ok 2 := by
    unfold resolveTons; rw [getField2_falsy _ hfalsy]; rfl
  have h18 : resolveEfficiency s = .ok 9 := by
    unfold resolveEfficiency; rw [getField2_falsy _ hfalsy]; rfl
  simp only [resolveSettings, compute_monthly_forecast, h1, h2, h3, h4, h5, h6, h7, h8,
    h9, h10, h11, h12, h13, h14, h15, h16, h17, h18, ebind_ok]
  exact ⟨_, rfl, rfl, rfl, rfl, rfl, rfl, rfl, fun w m y n => rfl⟩

/-- Witness for the amended C3: a settings dict holding only falsy values. -/
theorem falsy_settings_never_raise_witness :
    (∀ p ∈ ([("squareFeet", PyValue.num 0), ("hspf2", PyValue.none)] : Settings),
      truthy p.2 = false) ∧
    ∃ r : Resolved,
      resolveSettings [("squareFeet", PyValue.num 0), ("hspf2", PyValue.none)] = .ok r ∧
      r.squareFeet = 1500 ∧ r.insulation = 1 ∧ r.winterDay = 70 ∧
      r.utilityCost = 1 / 10 ∧ r.tons = 2 ∧ r.efficiency = 9 ∧
      ∀ (w : List WeatherDay) (m y n : ℤ),
        compute_monthly_forecast w [("squareFeet", PyValue.num 0), ("hspf2", PyValue.none)]
          m y n = .ok (forecastFromResolved r w
            [("squareFeet", PyValue.num 0), ("hspf2", PyValue.none)] m n) :=
  ⟨by decide, falsy_settings_never_raise _ (by decide)⟩

end ForecastEngine
